import Mathlib

/-!
A shallow embedding of the upload-and-processing pipeline of the
`learn-file-storage-s3-golang-starter` repository, together with theorems
settling the frozen claims about it.

Modelling conventions:
* Go `int` values (stream width/height) are modelled as `Int`; Go's `/` on
  ints truncates toward zero, which is `Int.tdiv`.
* Go byte slices are `List Nat` (each entry a byte value).
* External effects (JWT validation, database lookups, subprocess runs,
  `os.CreateTemp`, `io.Copy`, S3 puts) are inputs of the handler: the
  request environment records each collaborator's outcome, and the handler
  is the pure function from that environment to its HTTP response plus a
  trace of the side effects it performed (disk writes/removes, store puts,
  database updates).  Go `defer` statements are translated by appending the
  deferred removal on every return path that runs after the `defer` was
  registered, exactly as Go executes them.
* A Go `panic` is a distinct outcome (`PanicOr.panicked`), not an error
  return value.  Deferred removals still run during panic unwinding.
-/

/-- Go `strings.Split(s, sep)` for a single-character separator, acting on
the character list of the string.  `strings.Split("", "/") = [""]`,
`strings.Split("image/", "/") = ["image", ""]`. -/
def goSplit (sep : Char) : List Char → List (List Char)
  | [] => [[]]
  | c :: rest =>
    if c = sep then [] :: goSplit sep rest
    else
      match goSplit sep rest with
      | [] => [[c]]
      | g :: gs => (c :: g) :: gs

/-- `mediaTypeToExt` from `assets.go`: split the media type on `/`; if it
does not split into exactly two parts return `".bin"`, otherwise return
`"."` plus the second part verbatim. -/
def mediaTypeToExt (mediaType : String) : String :=
  match (goSplit '/' mediaType.data).map (fun cs => String.mk cs) with
  | [_, second] => "." ++ second
  | _ => ".bin"

/-- Two lowercase hex characters of one byte value (`Nat.digitChar` maps
0-15 to the lowercase hex digits). -/
def hexByte (n : Nat) : List Char :=
  [Nat.digitChar (n / 16 % 16), Nat.digitChar (n % 16)]

/-- A `uuid.UUID` value from the google/uuid library: sixteen bytes. -/
structure Uuid where
  bytes : List Nat
deriving DecidableEq, Repr

/-- The canonical string form of a UUID (`uuid.UUID.String()` of the
google/uuid library, the `%s` form used by the handlers): lowercase hex in
groups of 8-4-4-4-12 separated by dashes. -/
def uuidString (u : Uuid) : String :=
  let hx := fun (bs : List Nat) => (bs.map hexByte).flatten
  String.mk (hx (u.bytes.take 4) ++ ['-'] ++ hx ((u.bytes.drop 4).take 2) ++ ['-'] ++
    hx ((u.bytes.drop 6).take 2) ++ ['-'] ++ hx ((u.bytes.drop 8).take 2) ++ ['-'] ++
    hx (u.bytes.drop 10))

/-- The URL-safe base64 alphabet of `encoding/base64`: the 26 uppercase
letters, the 26 lowercase letters, the 10 digits, then dash and
underscore. -/
def b64Alphabet : List Char :=
  (List.range 26).map (fun i => Char.ofNat (65 + i)) ++
  (List.range 26).map (fun i => Char.ofNat (97 + i)) ++
  (List.range 10).map (fun i => Char.ofNat (48 + i)) ++ ['-', '_']

/-- One base64 output character. -/
def b64Char (n : Nat) : Char := b64Alphabet.getD n 'A'

/-- `base64.RawURLEncoding.EncodeToString`, character by character: three
input bytes become four output characters, the final one or two bytes become
two or three characters, and no padding is emitted. -/
def base64RawURLChars : List Nat → List Char
  | [] => []
  | [a] => [b64Char (a / 4), b64Char (a % 4 * 16)]
  | [a, b] => [b64Char (a / 4), b64Char (a % 4 * 16 + b / 16), b64Char (b % 16 * 4)]
  | a :: b :: c :: rest =>
    b64Char (a / 4) :: b64Char (a % 4 * 16 + b / 16) ::
      b64Char (b % 16 * 4 + c / 64) :: b64Char (c % 64) :: base64RawURLChars rest

/-- `base64.RawURLEncoding.EncodeToString` on a byte slice. -/
def base64RawURLEncode (bs : List Nat) : String := String.mk (base64RawURLChars bs)

/-- Outcome of a Go function that can `panic` instead of returning. -/
inductive PanicOr (α : Type) where
  | panicked (msg : String)
  | ok (val : α)
deriving DecidableEq, Repr

/-- `getAssetPath` from `assets.go` (random form).  The entropy source is an
input: `some base` is a successful `rand.Read` filling the 32-byte buffer,
`none` is a failed read, which the function turns into a panic, never a
normal error return.  On success the name is the URL-safe base64 of the
random bytes plus the media-type extension. -/
def getAssetPath (randBytes : Option (List Nat)) (mediaType : String) : PanicOr String :=
  match randBytes with
  | none => .panicked "failed to generate random bytes"
  | some base => .ok (base64RawURLEncode base ++ mediaTypeToExt mediaType)

/-- `getAssetPath` of the deterministic revision (`%s%s` of the video id and
the extension): the string form of the owning id concatenated with the
extension of the media type. -/
def getAssetPathDet (videoID : Uuid) (mediaType : String) : String :=
  uuidString videoID ++ mediaTypeToExt mediaType

/-- One stream entry of the decoded ffprobe JSON.  Go's `encoding/json`
leaves absent integer fields at their zero value, so a stream object
without width/height decodes to `⟨0, 0⟩`. -/
structure FfStream where
  width : Int
  height : Int
deriving DecidableEq, Repr

/-- The observable outcome of the ffprobe subprocess plus JSON decode:
either `cmd.Run()` failed, or the captured stdout did not unmarshal, or it
decoded to a list of streams. -/
inductive FfprobeOutcome where
  | execFailure (msg : String)
  | badOutput
  | streamList (streams : List FfStream)
deriving DecidableEq, Repr

/-- The classification at the end of `getVideoAspectRatio`
(`handler_upload_video.go`): `width == 16*height/9` gives `"16:9"`,
otherwise `height == 16*width/9` gives `"9:16"`, otherwise `"other"`, with
Go's truncating integer division. -/
def classifyAspect (width height : Int) : String :=
  if width = Int.tdiv (16 * height) 9 then "16:9"
  else if height = Int.tdiv (16 * width) 9 then "9:16"
  else "other"

/-- `getVideoAspectRatio` from `handler_upload_video.go` as a function of
the ffprobe outcome: subprocess failure and unparsable output are errors, an
empty stream list is an error, and otherwise the first stream's width and
height are classified. -/
def getVideoAspectRatio (probe : FfprobeOutcome) : Except String String :=
  match probe with
  | .execFailure msg => .error ("ffprobe error: " ++ msg)
  | .badOutput => .error "could not parse ffprobe output"
  | .streamList [] => .error "no video streams found"
  | .streamList (s :: _) => .ok (classifyAspect s.width s.height)

/-- The `switch aspectRatio` of `handlerUploadVideo` choosing the directory
prefix: `"16:9"` maps to `"landscape"`, `"9:16"` to `"portrait"`, anything
else to `"other"`. -/
def dirForAspect (aspect : String) : String :=
  if aspect = "16:9" then "landscape"
  else if aspect = "9:16" then "portrait"
  else "other"

/-- What the ffmpeg remux subprocess did: whether `cmd.Run()` returned nil,
whether the output file exists afterwards (so `os.Stat` succeeds), its size,
and the captured stderr text. -/
structure FfmpegRun where
  exitOk : Bool
  outputCreated : Bool
  outputSize : Nat
  stderrMsg : String
deriving DecidableEq, Repr

/-- `processVideoForFastStart` from `handler_upload_video.go`.  Returns the
function's `(string, error)` result together with the list of files the
subprocess created on disk.  The output path is the input path plus
`".processing"`.  A run error, a failed stat, and a zero-size output are all
errors; the function itself never removes the output file on any path. -/
def processVideoForFastStart (run : FfmpegRun) (inputFilePath : String) :
    Except String String × List String :=
  let processedFilePath := inputFilePath ++ ".processing"
  let writes := if run.outputCreated then [processedFilePath] else []
  if !run.exitOk then (.error ("error processing video: " ++ run.stderrMsg), writes)
  else if !run.outputCreated then (.error "could not stat processed file", writes)
  else if run.outputSize = 0 then (.error "processed file is empty", writes)
  else (.ok processedFilePath, writes)

/-- The row of the `videos` table this pipeline touches: the owner id, and
the two URL columns the handlers may write. -/
structure VideoRecord where
  userID : Uuid
  videoURL : Option String
  thumbnailURL : Option String
deriving DecidableEq, Repr

/-- The server configuration fields the upload pipeline reads. -/
structure ApiConfig where
  s3Bucket : String
  s3Region : String
  s3CfDistribution : String
  port : String
  assetsRoot : String
deriving DecidableEq, Repr

/-- Go `filepath.Join` / `path.Join` restricted to the clean, relative
components this pipeline joins (a directory prefix and a filename): an empty
side yields the other side, otherwise the two are joined with `/`. -/
def goPathJoin (a b : String) : String :=
  if a = "" then b else if b = "" then a else a ++ "/" ++ b

/-- `(cfg apiConfig).getAssetDiskPath` from `assets.go`. -/
def getAssetDiskPath (cfg : ApiConfig) (assetPath : String) : String :=
  goPathJoin cfg.assetsRoot assetPath

/-- `(cfg apiConfig).getAssetURL` from `assets.go`. -/
def getAssetURL (cfg : ApiConfig) (assetPath : String) : String :=
  "http://localhost:" ++ cfg.port ++ "/assets/" ++ assetPath

/-- `(cfg apiConfig).getObjectURL` from `assets.go`. -/
def getObjectURL (cfg : ApiConfig) (key : String) : String :=
  "https://" ++ cfg.s3Bucket ++ ".s3." ++ cfg.s3Region ++ ".amazonaws.com/" ++ key

/-- An HTTP response of a handler: `respondWithError` with its status code
and message, or `respondWithJSON` of the updated video row. -/
inductive Resp where
  | err (status : Nat) (msg : String)
  | okJson (video : VideoRecord)
deriving DecidableEq, Repr

/-- The side effects one handler run performed, in order: files created on
local disk, files removed from local disk, object-store put calls (key and
content type), and database update calls. -/
structure Trace where
  diskWrites : List String
  diskRemoves : List String
  s3Puts : List (String × String)
  dbUpdates : List VideoRecord
deriving DecidableEq, Repr

/-- The empty trace: no side effect happened. -/
def Trace.empty : Trace := ⟨[], [], [], []⟩

/-- The files still on local disk when the handler has returned: every file
written and never removed. -/
def remainingFiles (t : Trace) : List String :=
  t.diskWrites.filter (fun p => !(t.diskRemoves.contains p))

/-- The request environment of `handlerUploadVideo`: the outcome of each
collaborator call the handler makes, in program order.  `pathVideoID` is the
`uuid.Parse` result of the path parameter, `bearerToken` the
`auth.GetBearerToken` result, `authUser` the `auth.ValidateJWT` result,
`dbVideo` the `cfg.db.GetVideo` row, `formFileOk` whether `r.FormFile`
succeeded, `parsedMediaType` the `mime.ParseMediaType` result of the part's
Content-Type header, `tempPath` the name `os.CreateTemp` chose, `entropy`
the `rand.Read` outcome inside `getAssetPath`, and `ffmpeg` what the remux
subprocess did. -/
structure VideoReq where
  pathVideoID : Option Uuid
  bearerToken : Option String
  authUser : Option Uuid
  dbVideo : Option VideoRecord
  formFileOk : Bool
  parsedMediaType : Option String
  createTempOk : Bool
  tempPath : String
  copyOk : Bool
  seekOk : Bool
  probe : FfprobeOutcome
  entropy : Option (List Nat)
  ffmpeg : FfmpegRun
  openProcessedOk : Bool
  putOk : Bool
  updateOk : Bool
deriving DecidableEq, Repr

/-- The part of `handlerUploadVideo` that runs once the temp file exists
(after `os.CreateTemp` succeeded).  Its trace starts with the temp-file
write; the deferred `os.Remove(tempFile.Name())` is appended by the caller
`handlerUploadVideo` on every return of this function, as Go's `defer`
does.  The deferred removal of the processed file is appended here on every
return after `processVideoForFastStart` succeeds, and only then, mirroring
the `defer os.Remove(processedFilePath)` that is only reached on its
success path. -/
def handlerUploadVideoStaged (cfg : ApiConfig) (env : VideoReq) (video : VideoRecord)
    (mediaType : String) : PanicOr Resp × Trace :=
  let t0 : Trace := ⟨[env.tempPath], [], [], []⟩
  if !env.copyOk then (.ok (.err 500 "Could not write file to disk"), t0)
  else if !env.seekOk then (.ok (.err 500 "Could not reset file pointer"), t0)
  else
    match getVideoAspectRatio env.probe with
    | .error _ => (.ok (.err 500 "Error determining aspect ratio"), t0)
    | .ok aspect =>
      let directory := dirForAspect aspect
      match getAssetPath env.entropy mediaType with
      | .panicked msg => (.panicked msg, t0)
      | .ok name =>
        let key := goPathJoin directory name
        match processVideoForFastStart env.ffmpeg env.tempPath with
        | (.error _, writes) =>
          (.ok (.err 500 "Error processing video"), { t0 with diskWrites := t0.diskWrites ++ writes })
        | (.ok processedFilePath, writes) =>
          let t1 : Trace := ⟨t0.diskWrites ++ writes, [processedFilePath], [], []⟩
          if !env.openProcessedOk then (.ok (.err 500 "Could not open processed file"), t1)
          else
            let t2 : Trace := { t1 with s3Puts := [(key, mediaType)] }
            if !env.putOk then (.ok (.err 500 "Error uploading file to S3"), t2)
            else
              let url := "https://" ++ cfg.s3CfDistribution ++ "/" ++ key
              let video2 : VideoRecord := { video with videoURL := some url }
              let t3 : Trace := { t2 with dbUpdates := [video2] }
              if !env.updateOk then (.ok (.err 500 "Couldn\x27t update video"), t3)
              else (.ok (.okJson video2), t3)

/-- `handlerUploadVideo` from `handler_upload_video.go` (final revision:
aspect classification, fast-start remux, S3 put, CloudFront URL).  Checks
run in program order: parse the path id, extract the bearer token, validate
the JWT, fetch the video row, compare owner to caller, read the form file,
parse and check the media type, create the temp file; only then the staged
phase runs, with the deferred temp-file removal appended to its trace on
every return, panic unwinding included. -/
def handlerUploadVideo (cfg : ApiConfig) (env : VideoReq) : PanicOr Resp × Trace :=
  match env.pathVideoID with
  | none => (.ok (.err 400 "Invalid ID"), Trace.empty)
  | some _ =>
  match env.bearerToken with
  | none => (.ok (.err 401 "Couldn\x27t find JWT"), Trace.empty)
  | some _ =>
  match env.authUser with
  | none => (.ok (.err 401 "Couldn\x27t validate JWT"), Trace.empty)
  | some userID =>
  match env.dbVideo with
  | none => (.ok (.err 500 "Couldn\x27t find video"), Trace.empty)
  | some video =>
  if video.userID ≠ userID then
    (.ok (.err 401 "Not authorized to update this video"), Trace.empty)
  else if !env.formFileOk then (.ok (.err 400 "Unable to parse form file"), Trace.empty)
  else
    match env.parsedMediaType with
    | none => (.ok (.err 400 "Invalid Content-Type"), Trace.empty)
    | some mediaType =>
    if mediaType ≠ "video/mp4" then
      (.ok (.err 400 "Invalid file type, only MP4 is allowed"), Trace.empty)
    else if !env.createTempOk then (.ok (.err 500 "Could not create temp file"), Trace.empty)
    else
      let (r, t) := handlerUploadVideoStaged cfg env video mediaType
      (r, { t with diskRemoves := t.diskRemoves ++ [env.tempPath] })

/-- The request environment of `handlerUploadThumbnail` (the revision that
writes the asset to the assets directory on disk), fields in program order:
`uuid.Parse` of the path id, `auth.GetBearerToken`, `auth.ValidateJWT`,
whether `r.FormFile` succeeded, the raw `Content-Type` header of the part
(`""` when absent), whether `os.Create` succeeded, whether `io.Copy`
succeeded, the `cfg.db.GetVideo` row, and whether `cfg.db.UpdateVideo`
succeeded. -/
structure ThumbReq where
  pathVideoID : Option Uuid
  bearerToken : Option String
  authUser : Option Uuid
  formFileOk : Bool
  contentTypeHeader : String
  createOk : Bool
  copyOk : Bool
  dbVideo : Option VideoRecord
  updateOk : Bool
deriving DecidableEq, Repr

/-- `handlerUploadThumbnail` (disk revision): parse the id, authenticate,
parse the form (its error is ignored by the source), read the file part and
its Content-Type header, derive the deterministic asset path, create and
fill the file at the asset disk path, and only then fetch the video row and
compare owner to caller before updating the thumbnail URL.  The created
file is never removed on any path of this handler. -/
def handlerUploadThumbnail (cfg : ApiConfig) (env : ThumbReq) : Resp × Trace :=
  match env.pathVideoID with
  | none => (.err 400 "Invalid ID", Trace.empty)
  | some videoID =>
  match env.bearerToken with
  | none => (.err 401 "Couldn\x27t find JWT", Trace.empty)
  | some _ =>
  match env.authUser with
  | none => (.err 401 "Couldn\x27t validate JWT", Trace.empty)
  | some userID =>
  if !env.formFileOk then (.err 400 "Unable to parse form file", Trace.empty)
  else if env.contentTypeHeader = "" then
    (.err 400 "Missing Content-Type for thumbnail", Trace.empty)
  else
    let mediaType := env.contentTypeHeader
    let assetPath := getAssetPathDet videoID mediaType
    let assetDiskPath := getAssetDiskPath cfg assetPath
    if !env.createOk then (.err 500 "Unable to create file on server", Trace.empty)
    else
      let t0 : Trace := ⟨[assetDiskPath], [], [], []⟩
      if !env.copyOk then (.err 500 "Error saving file", t0)
      else
        match env.dbVideo with
        | none => (.err 500 "Couldn\x27t find video", t0)
        | some video =>
        if video.userID ≠ userID then
          (.err 401 "Not authorized to update this video", t0)
        else
          let url := getAssetURL cfg assetPath
          let video2 : VideoRecord := { video with thumbnailURL := some url }
          let t1 : Trace := { t0 with dbUpdates := [video2] }
          if !env.updateOk then (.err 500 "Couldn\x27t update video", t1)
          else (.okJson video2, t1)

/-- A concrete video owner id. -/
def uuidOwner : Uuid := ⟨[1, 2, 3, 4, 5, 6, 7, 8, 9, 10, 11, 12, 13, 14, 15, 16]⟩

/-- A concrete caller id distinct from `uuidOwner`. -/
def uuidCaller : Uuid := ⟨[16, 15, 14, 13, 12, 11, 10, 9, 8, 7, 6, 5, 4, 3, 2, 1]⟩

/-- A video row owned by `uuidOwner` with no URLs yet. -/
def videoRecOwner : VideoRecord := ⟨uuidOwner, none, none⟩

/-- A concrete server configuration. -/
def cfg0 : ApiConfig := ⟨"tubely-bucket", "us-east-1", "d123.cloudfront.net", "8091", "assets"⟩

/-- A video-upload run by the owner where every collaborator succeeds except
that the ffmpeg remux exits successfully but writes a zero-byte output
file. -/
def zeroByteEnv : VideoReq :=
  ⟨some uuidOwner, some "token", some uuidOwner, some videoRecOwner, true,
   some "video/mp4", true, "/tmp/tubely-upload1", true, true,
   .streamList [⟨1920, 1080⟩], some (List.replicate 32 0),
   ⟨true, true, 0, ""⟩, true, true, true⟩

/-- The same video-upload run but authenticated as `uuidCaller`, who does
not own the target video. -/
def videoEnvForbidden : VideoReq := { zeroByteEnv with authUser := some uuidCaller }

/-- The same video-upload run but with a declared media type other than
`video/mp4`. -/
def videoEnvWrongType : VideoReq := { zeroByteEnv with parsedMediaType := some "video/quicktime" }

/-- A thumbnail-upload run authenticated as `uuidCaller`, who does not own
the target video; all earlier collaborator calls succeed. -/
def thumbEnvForbidden : ThumbReq :=
  ⟨some uuidOwner, some "token", some uuidCaller, true, "image/png", true, true,
   some videoRecOwner, true⟩

/-- Splitting on a character that does not occur in the list yields the
whole list as the single part. -/
theorem goSplit_of_not_mem (sep : Char) (l : List Char) (h : sep ∉ l) :
    goSplit sep l = [l] := by
  induction l with
  | nil => rfl
  | cons c rest ih =>
    have hc : c ≠ sep := fun e => h (e ▸ List.mem_cons_self c rest)
    have hrest : sep ∉ rest := fun m => h (List.mem_cons_of_mem c m)
    rw [goSplit, if_neg hc, ih hrest]

/-- Any integer geometry in exact 16:9 ratio satisfies the first branch of
the classification: `9 * w = 16 * h` forces `16 * h / 9` to divide exactly
back to `w`, so no truncation occurs. -/
theorem classifyAspect_of_exact (w h : Int) (e : 9 * w = 16 * h) :
    classifyAspect w h = "16:9" := by
  have key : Int.tdiv (16 * h) 9 = w := by
    rw [← e]
    exact Int.mul_tdiv_cancel_left w (by norm_num)
  simp [classifyAspect, key]

/-- C3: orientation classification is the exact integer test with Go
truncating division — 1920x1080 is `"16:9"`, 1080x1920 is `"9:16"`,
1000x1000 is `"other"` — and the handler maps `"16:9"` to `"landscape"`,
`"9:16"` to `"portrait"`, and every other aspect string to `"other"`. -/
theorem C3_orientation_classification :
    (∀ w h : Int, classifyAspect w h =
      if w = Int.tdiv (16 * h) 9 then "16:9"
      else if h = Int.tdiv (16 * w) 9 then "9:16"
      else "other") ∧
    classifyAspect 1920 1080 = "16:9" ∧
    classifyAspect 1080 1920 = "9:16" ∧
    classifyAspect 1000 1000 = "other" ∧
    dirForAspect "16:9" = "landscape" ∧
    dirForAspect "9:16" = "portrait" ∧
    (∀ a : String, a ≠ "16:9" → a ≠ "9:16" → dirForAspect a = "other") := by
  refine ⟨fun w h => rfl, by decide, by decide, by decide, by decide, by decide,
    fun a h1 h2 => ?_⟩
  simp [dirForAspect, h1, h2]

/-- C3 witness: the catch-all branch of the directory mapping applied at the
concrete aspect string `"4:3"`. -/
theorem C3_orientation_classification_witness :
    ("4:3" ≠ "16:9" ∧ "4:3" ≠ "9:16") ∧ dirForAspect "4:3" = "other" :=
  ⟨⟨by decide, by decide⟩,
   C3_orientation_classification.2.2.2.2.2.2 "4:3" (by decide) (by decide)⟩

/-- C4 counterexample: the claim is false — there is no positive integer
geometry in exact 16:9 ratio that the integer-division test classifies as
`"other"`; `9 * w = 16 * h` forces the division to be exact. -/
theorem C4_counterexample_no_misclassified_169 :
    ¬ ∃ w h : Int, 0 < w ∧ 0 < h ∧ 9 * w = 16 * h ∧ classifyAspect w h = "other" := by
  rintro ⟨w, h, -, -, e, hc⟩
  rw [classifyAspect_of_exact w h e] at hc
  exact absurd hc (by decide)

/-- C4 amended: every positive integer geometry in exact 16:9 ratio is
classified `"16:9"` by the integer-division test (exactness of the ratio
forces the height to be divisible by 9, so truncation never fires there);
the truncation instead lets some geometries that are not exactly 16:9, such
as 17x10, into the `"16:9"` branch. -/
theorem C4_exact_ratio_classification :
    (∀ w h : Int, 0 < w → 0 < h → 9 * w = 16 * h → classifyAspect w h = "16:9") ∧
    classifyAspect 17 10 = "16:9" ∧ (9 * 17 : Int) ≠ 16 * 10 :=
  ⟨fun w h _ _ e => classifyAspect_of_exact w h e, by decide, by decide⟩

/-- C4 witness: the amended universal statement applied at the concrete
exact-16:9 geometry 16x9. -/
theorem C4_exact_ratio_classification_witness :
    (0 < (16 : Int) ∧ 0 < (9 : Int) ∧ (9 * 16 : Int) = 16 * 9) ∧
    classifyAspect 16 9 = "16:9" :=
  ⟨⟨by decide, by decide, by decide⟩,
   C4_exact_ratio_classification.1 16 9 (by decide) (by decide) (by decide)⟩

/-- C5 counterexample: the claim is false at `"image/"` — the code only
checks that the split has exactly two parts, not that they are non-empty,
so the empty subtype yields `"."`, not `".bin"`. -/
theorem C5_counterexample_empty_subtype :
    mediaTypeToExt "image/" = "." ∧ mediaTypeToExt "image/" ≠ ".bin" := by
  exact ⟨by decide, by decide⟩

/-- C5 amended: extension resolution splits on `"/"` and returns `".bin"`
exactly when the split does not yield two parts (empty parts still count as
parts); `"image/png"` maps to `".png"`, `"video/mp4"` to `".mp4"`, a string
without `"/"` to `".bin"`, and `"image/"` to `"."`. -/
theorem C5_extension_mapping :
    mediaTypeToExt "image/png" = ".png" ∧
    mediaTypeToExt "video/mp4" = ".mp4" ∧
    mediaTypeToExt "image/" = "." ∧
    (∀ s : String, '/' ∉ s.data → mediaTypeToExt s = ".bin") := by
  refine ⟨by decide, by decide, by decide, fun s h => ?_⟩
  unfold mediaTypeToExt
  rw [goSplit_of_not_mem '/' s.data h]
  rfl

/-- C5 witness: the no-separator branch applied at a concrete media type
without a slash. -/
theorem C5_extension_mapping_witness :
    '/' ∉ ("octetstream" : String).data ∧ mediaTypeToExt "octetstream" = ".bin" :=
  ⟨by decide, C5_extension_mapping.2.2.2 "octetstream" (by decide)⟩

/-- C8: failure of the entropy source makes `getAssetPath` panic (for every
media type), never return an error value; on a successful read it returns
the encoded name, never a panic. -/
theorem C8_entropy_failure_is_fatal :
    (∀ mediaType : String,
      getAssetPath none mediaType = .panicked "failed to generate random bytes") ∧
    (∀ (base : List Nat) (mediaType : String),
      getAssetPath (some base) mediaType =
        .ok (base64RawURLEncode base ++ mediaTypeToExt mediaType)) :=
  ⟨fun _ => rfl, fun _ _ => rfl⟩

/-- C9: the deterministic key is exactly the string form of the owning id
concatenated with the media-type extension, and equal inputs always produce
equal keys. -/
theorem C9_deterministic_key :
    (∀ (videoID : Uuid) (mediaType : String),
      getAssetPathDet videoID mediaType = uuidString videoID ++ mediaTypeToExt mediaType) ∧
    (∀ (id1 id2 : Uuid) (mt1 mt2 : String), id1 = id2 → mt1 = mt2 →
      getAssetPathDet id1 mt1 = getAssetPathDet id2 mt2) :=
  ⟨fun _ _ => rfl, fun _ _ _ _ h1 h2 => by rw [h1, h2]⟩

/-- C9 witness: determinism applied at a concrete id and media type. -/
theorem C9_deterministic_key_witness :
    (uuidOwner = uuidOwner ∧ ("image/png" : String) = "image/png") ∧
    getAssetPathDet uuidOwner "image/png" = getAssetPathDet uuidOwner "image/png" :=
  ⟨⟨rfl, rfl⟩, C9_deterministic_key.2 uuidOwner uuidOwner "image/png" "image/png" rfl rfl⟩

/-- C10: a first stream of width 0 and height 0 (also the decoding of
ffprobe JSON that omits the fields) classifies as `"16:9"`, hence landscape,
and the classification only ever consults the first stream. -/
theorem C10_zero_dimensions_landscape :
    (∀ rest : List FfStream,
      getVideoAspectRatio (.streamList (⟨0, 0⟩ :: rest)) = .ok "16:9") ∧
    dirForAspect "16:9" = "landscape" ∧
    (∀ (s : FfStream) (r1 r2 : List FfStream),
      getVideoAspectRatio (.streamList (s :: r1)) = getVideoAspectRatio (.streamList (s :: r2))) :=
  ⟨fun _ => rfl, by decide, fun _ _ _ => rfl⟩

/-- C2 is violated: on the run where the ffmpeg remux exits successfully
but writes a zero-byte output, the handler returns the transcode error,
removes the staged temp file, but leaves the `.processing` artifact on
disk — one temp file the run created survives the handler's return. -/
theorem C2_processed_artifact_survives :
    handlerUploadVideo cfg0 zeroByteEnv =
      (.ok (.err 500 "Error processing video"),
       ⟨["/tmp/tubely-upload1", "/tmp/tubely-upload1.processing"],
        ["/tmp/tubely-upload1"], [], []⟩) ∧
    remainingFiles (handlerUploadVideo cfg0 zeroByteEnv).2 =
      ["/tmp/tubely-upload1.processing"] := by
  exact ⟨by decide, by decide⟩

/-- C6 half-holds: a zero-byte remux output is reported as a transcode
failure even though the subprocess exited successfully, but the zero-byte
artifact is NOT removed — it is still on disk when the handler returns. -/
theorem C6_zero_byte_output_reported_not_removed :
    processVideoForFastStart ⟨true, true, 0, ""⟩ "/tmp/in.mp4" =
      (.error "processed file is empty", ["/tmp/in.mp4.processing"]) ∧
    "/tmp/tubely-upload1.processing" ∈ remainingFiles (handlerUploadVideo cfg0 zeroByteEnv).2 := by
  exact ⟨rfl, by decide⟩

/-- C1 counterexample: the claim is false for the thumbnail variant — on a
request whose target is owned by someone other than the caller, the handler
does return the not-authorized error, but only after it has already created
(and filled) the asset file on disk, so a file IS created for such a
request. -/
theorem C1_counterexample_thumbnail_creates_file :
    (handlerUploadThumbnail cfg0 thumbEnvForbidden).1 =
      .err 401 "Not authorized to update this video" ∧
    (handlerUploadThumbnail cfg0 thumbEnvForbidden).2.diskWrites =
      [getAssetDiskPath cfg0 (getAssetPathDet uuidOwner "image/png")] ∧
    (handlerUploadThumbnail cfg0 thumbEnvForbidden).2.diskWrites ≠ [] := by
  exact ⟨by decide, by decide, by decide⟩

/-- C1 amended: on an owner-mismatch request the VIDEO handler halts with
the not-authorized error and an empty effect trace — no file is created on
disk and no store put occurs; the THUMBNAIL handler also halts with the
not-authorized error and performs no store put and no database update, but
only after the asset file has been created on disk (and it is never
removed). -/
theorem C1_owner_mismatch_halts :
    (∀ (cfg : ApiConfig) (env : VideoReq) (vid : Uuid) (tok : String) (u : Uuid)
      (v : VideoRecord),
      env.pathVideoID = some vid → env.bearerToken = some tok → env.authUser = some u →
      env.dbVideo = some v → v.userID ≠ u →
      handlerUploadVideo cfg env =
        (.ok (.err 401 "Not authorized to update this video"), Trace.empty)) ∧
    (∀ (cfg : ApiConfig) (env : ThumbReq) (vid : Uuid) (tok : String) (u : Uuid)
      (v : VideoRecord),
      env.pathVideoID = some vid → env.bearerToken = some tok → env.authUser = some u →
      env.formFileOk = true → env.contentTypeHeader ≠ "" → env.createOk = true →
      env.copyOk = true → env.dbVideo = some v → v.userID ≠ u →
      handlerUploadThumbnail cfg env =
        (.err 401 "Not authorized to update this video",
         ⟨[getAssetDiskPath cfg (getAssetPathDet vid env.contentTypeHeader)], [], [], []⟩)) := by
  constructor
  · intro cfg env vid tok u v h1 h2 h3 h4 h5
    unfold handlerUploadVideo
    rw [h1, h2, h3, h4]
    simp [h5]
  · intro cfg env vid tok u v h1 h2 h3 h4 h5 h6 h7 h8 h9
    unfold handlerUploadThumbnail
    rw [h1, h2, h3]
    simp [h4, h5, h6, h7, h8, h9]

/-- C1 witness: both halves of the amended statement applied at concrete
owner-mismatch requests. -/
theorem C1_owner_mismatch_halts_witness :
    handlerUploadVideo cfg0 videoEnvForbidden =
      (.ok (.err 401 "Not authorized to update this video"), Trace.empty) ∧
    handlerUploadThumbnail cfg0 thumbEnvForbidden =
      (.err 401 "Not authorized to update this video",
       ⟨[getAssetDiskPath cfg0 (getAssetPathDet uuidOwner "image/png")], [], [], []⟩) :=
  ⟨C1_owner_mismatch_halts.1 cfg0 videoEnvForbidden uuidOwner "token" uuidCaller
    videoRecOwner rfl rfl rfl rfl (by decide),
   C1_owner_mismatch_halts.2 cfg0 thumbEnvForbidden uuidOwner "token" uuidCaller
    videoRecOwner rfl rfl rfl rfl (by decide) rfl rfl rfl (by decide)⟩

/-- C7: once a video-upload request reaches the media-type check (id, auth,
ownership and form part all in order), an unparsable Content-Type or any
parsed media type other than exactly `"video/mp4"` is rejected with the
corresponding 400 error and an empty effect trace: the temp file is never
created and nothing is published. -/
theorem C7_non_mp4_rejected_before_staging :
    ∀ (cfg : ApiConfig) (env : VideoReq) (vid : Uuid) (tok : String) (u : Uuid)
      (v : VideoRecord),
      env.pathVideoID = some vid → env.bearerToken = some tok → env.authUser = some u →
      env.dbVideo = some v → v.userID = u → env.formFileOk = true →
      ((env.parsedMediaType = none →
        handlerUploadVideo cfg env = (.ok (.err 400 "Invalid Content-Type"), Trace.empty)) ∧
       (∀ mt : String, env.parsedMediaType = some mt → mt ≠ "video/mp4" →
        handlerUploadVideo cfg env =
          (.ok (.err 400 "Invalid file type, only MP4 is allowed"), Trace.empty))) := by
  intro cfg env vid tok u v h1 h2 h3 h4 h5 h6
  constructor
  · intro h7
    unfold handlerUploadVideo
    rw [h1, h2, h3, h4, h7]
    simp [h5, h6]
  · intro mt h7 h8
    unfold handlerUploadVideo
    rw [h1, h2, h3, h4, h7]
    simp [h5, h6, h8]

/-- C7 witness: the rejection applied at a concrete request declaring
`video/quicktime`. -/
theorem C7_non_mp4_rejected_before_staging_witness :
    handlerUploadVideo cfg0 videoEnvWrongType =
      (.ok (.err 400 "Invalid file type, only MP4 is allowed"), Trace.empty) :=
  (C7_non_mp4_rejected_before_staging cfg0 videoEnvWrongType uuidOwner "token" uuidOwner
    videoRecOwner rfl rfl rfl rfl rfl rfl).2 "video/quicktime" rfl (by decide)
